import Mathlib

/-!
Shallow embedding of `src/sensor.py`, a traffic-sensor simulator: it parses
six positional CLI arguments, builds a weighted list of vehicle labels
(the Category Pool), and loops forever sampling a batch of labels, POSTing
them as JSON, and sleeping.  Randomness is modelled by an explicit index
oracle (`picks`), the network by a per-cycle success oracle (`postOk`), and
uncaught Python exceptions by `Except` / `Option` results.
-/

namespace Sensor

/-- the module-level constant `URL` of sensor.py (line 9). -/
def URL : String := "http://localhost:8080/sensorapi/data"

/-- the six configuration values read from `sys.argv` in `run` (lines 21-26).
Integers are Python ints, so unbounded `Int`. -/
structure Config where
  location : String
  cw : Int
  mw : Int
  bw : Int
  num_vehicles : Int
  period : Int
deriving DecidableEq, Repr

/-- python list repetition `[x]*n` for an int `n`: a negative or zero count
yields the empty list, hence `Int.toNat`. -/
def pyRepeat (x : String) (n : Int) : List String :=
  List.replicate n.toNat x

/-- line 31: `vehicle_distribution = ['car']*cw + ['motorcycle']*mw + ['bus']*bw`. -/
def vehicle_distribution (cw mw bw : Int) : List String :=
  pyRepeat "car" cw ++ pyRepeat "motorcycle" mw ++ pyRepeat "bus" bw

/-- python `range(0, n)` for an int `n`: empty when `n ≤ 0`. -/
def pyRange (n : Int) : List Nat := List.range n.toNat

/-- python `random.choice(pool)` with the random index supplied by an oracle:
uniform index selection reduced modulo the pool length.  On an empty pool
`i % 0 = i` and lookup fails, modelling the `IndexError` raise as `none`. -/
def choice (pool : List String) (i : Nat) : Option String :=
  pool.get? (i % pool.length)

/-- lines 34-36: the `for n in range(0, num_vehicles)` loop appending
`random.choice(vehicle_distribution)`; the first failing draw aborts. -/
def sampleLoop (pool : List String) (picks : Nat → Nat) : List Nat → Option (List String)
  | [] => some []
  | n :: ns =>
      match choice pool (picks n), sampleLoop pool picks ns with
      | some v, some vs => some (v :: vs)
      | _, _ => none

/-- one cycle's Observation Batch: `num_vehicles` draws from the pool. -/
def sampleBatch (pool : List String) (num : Int) (picks : Nat → Nat) : Option (List String) :=
  sampleLoop pool picks (pyRange num)

/-- lines 39-42: the dict `{'location': ..., 'data': vehicles}` sent each cycle. -/
structure Payload where
  location : String
  data : List String
deriving DecidableEq, Repr

/-- line 38: `headers = \x7b'Content-Type': 'application/json'\x7d`. -/
def headers : List (String × String) := [("Content-Type", "application/json")]

/-- the fragment of JSON that `json.dumps` produces for the payload. -/
inductive Json where
  | str : String → Json
  | arr : List Json → Json
  | obj : List (String × Json) → Json

/-- serialization of the payload dict, as `json.dumps(data)` on line 43. -/
def encodePayload (p : Payload) : Json :=
  Json.obj [("location", Json.str p.location), ("data", Json.arr (p.data.map Json.str))]

/-- extract a JSON string, for decoding the `data` array elements. -/
def jsonToString : Json → Option String
  | Json.str s => some s
  | _ => none

/-- decode a JSON array of strings. -/
def decodeData : List Json → Option (List String)
  | [] => some []
  | j :: js =>
      match jsonToString j, decodeData js with
      | some s, some rest => some (s :: rest)
      | _, _ => none

/-- decoder for the wire format: an object with a string `location` field and
an array-of-strings `data` field, in that order. -/
def decodePayload : Json → Option Payload
  | Json.obj [(k1, Json.str loc), (k2, Json.arr items)] =>
      if k1 = "location" then
        if k2 = "data" then
          (decodeData items).map (fun d => { location := loc, data := d })
        else none
      else none
  | _ => none

/-- uncaught exceptions a cycle of the loop can raise: `IndexError` from
`random.choice` on an empty pool, or a transport error from `requests.post`. -/
inductive CycleError where
  | indexError
  | networkError
deriving DecidableEq, Repr

/-- the whole mutable state of the `run` body: the six configuration
variables, `vehicle_distribution`, the loop-local `vehicles`, plus the
history of successfully issued POSTs and a cycle counter for the oracles. -/
structure ProcState where
  location : String
  cw : Int
  mw : Int
  bw : Int
  num_vehicles : Int
  period : Int
  vehicle_distribution : List String
  vehicles : List String
  posted : List Payload
  cycles : Nat
deriving DecidableEq, Repr

/-- lines 21-31: state after the assignments and the one-time construction of
`vehicle_distribution`, before the `while True` loop. -/
def initState (cfg : Config) : ProcState :=
  { location := cfg.location
    cw := cfg.cw
    mw := cfg.mw
    bw := cfg.bw
    num_vehicles := cfg.num_vehicles
    period := cfg.period
    vehicle_distribution := vehicle_distribution cfg.cw cfg.mw cfg.bw
    vehicles := []
    posted := []
    cycles := 0 }

/-- lines 33-45: one iteration of the `while True` body.  Sampling failure
raises `IndexError`; then the POST is issued and, the body having no
`try`/`except`, a transport failure propagates as `networkError`. -/
def stepCycle (picks : Nat → Nat) (postOk : Bool) (s : ProcState) : Except CycleError ProcState :=
  match sampleBatch s.vehicle_distribution s.num_vehicles picks with
  | none => Except.error CycleError.indexError
  | some vs =>
      if postOk then
        Except.ok { s with
          vehicles := vs
          posted := s.posted ++ [{ location := s.location, data := vs }]
          cycles := s.cycles + 1 }
      else Except.error CycleError.networkError

/-- n iterations of the loop; an uncaught exception in any cycle aborts the
whole run, exactly as in the source, which has no handler. -/
def runLoop (picks : Nat → Nat → Nat) (postOk : Nat → Bool) :
    Nat → ProcState → Except CycleError ProcState
  | 0, s => Except.ok s
  | Nat.succ n, s =>
      match stepCycle (picks s.cycles) (postOk s.cycles) s with
      | Except.error e => Except.error e
      | Except.ok s2 => runLoop picks postOk n s2

/-- uncaught exceptions at startup: `IndexError` from a missing `sys.argv`
entry, `ValueError` from `int()` on a non-numeric string. -/
inductive StartupError where
  | indexError
  | valueError
deriving DecidableEq, Repr

/-- accumulator pass over a digit list, base 10. -/
def parseNatAux : List Char → Nat → Option Nat
  | [], acc => some acc
  | c :: cs, acc =>
      if c.isDigit then parseNatAux cs (acc * 10 + (c.toNat - 48))
      else none

/-- parse a non-empty all-digit character list as a natural number. -/
def parseNat : List Char → Option Nat
  | [] => none
  | c :: cs => parseNatAux (c :: cs) 0

/-- strip leading and trailing whitespace, as `int()` tolerates. -/
def pyStrip (cs : List Char) : List Char :=
  ((cs.dropWhile Char.isWhitespace).reverse.dropWhile Char.isWhitespace).reverse

/-- python `int(string)`: optional surrounding whitespace, optional sign,
decimal digits; anything else raises `ValueError` (here `none`). -/
def pyInt (s : String) : Option Int :=
  match pyStrip s.data with
  | '-' :: rest => (parseNat rest).map (fun n => -(n : Int))
  | '+' :: rest => (parseNat rest).map (fun n => (n : Int))
  | rest => (parseNat rest).map (fun n => (n : Int))

/-- python `int(sys.argv[i])`: index the argument vector, then parse. -/
def pyArgInt (argv : List String) (i : Nat) : Except StartupError Int :=
  match argv.get? i with
  | none => Except.error StartupError.indexError
  | some s =>
      match pyInt s with
      | none => Except.error StartupError.valueError
      | some n => Except.ok n

/-- lines 21-26: the six reads from `sys.argv`, in source order (`argv.get? 0`
is the program name).  No validation happens: whatever `int()` accepts is
stored, signs included, and the location may be any string. -/
def startup (argv : List String) : Except StartupError Config := do
  let location ←
    match argv.get? 1 with
    | none => Except.error StartupError.indexError
    | some s => Except.ok s
  let cw ← pyArgInt argv 2
  let mw ← pyArgInt argv 3
  let bw ← pyArgInt argv 4
  let num_vehicles ← pyArgInt argv 5
  let period ← pyArgInt argv 6
  Except.ok { location := location, cw := cw, mw := mw, bw := bw,
              num_vehicles := num_vehicles, period := period }

/-- a concrete index oracle used to instantiate sampling theorems. -/
def idPicks : Nat → Nat := fun n => n

/-- a concrete per-cycle index oracle for the run loop. -/
def zeroPicks : Nat → Nat → Nat := fun _ _ => 0

/-- network oracle: every POST succeeds. -/
def alwaysOk : Nat → Bool := fun _ => true

/-- network oracle: every POST raises a transport error. -/
def alwaysFail : Nat → Bool := fun _ => false

theorem choice_ok (pool : List String) (h : pool ≠ []) (i : Nat) :
    ∃ x, choice pool i = some x ∧ x ∈ pool := by
  have hlen : 0 < pool.length := List.length_pos.mpr h
  have hm : i % pool.length < pool.length := Nat.mod_lt _ hlen
  cases heq : pool.get? (i % pool.length) with
  | none =>
      rw [List.get?_eq_none] at heq
      omega
  | some x => exact ⟨x, heq, List.get?_mem heq⟩

theorem sampleLoop_ok (pool : List String) (picks : Nat → Nat) (h : pool ≠ []) :
    ∀ ns : List Nat, ∃ l, sampleLoop pool picks ns = some l ∧
      l.length = ns.length ∧ ∀ x ∈ l, x ∈ pool := by
  intro ns
  induction ns with
  | nil => exact ⟨[], rfl, rfl, by simp⟩
  | cons n ns ih =>
      obtain ⟨l, hl, hlen, hmem⟩ := ih
      obtain ⟨x, hx, hxmem⟩ := choice_ok pool h (picks n)
      refine ⟨x :: l, ?_, ?_, ?_⟩
      · simp [sampleLoop, hx, hl]
      · simp [hlen]
      · intro y hy
        rcases List.mem_cons.mp hy with h1 | h1
        · exact h1 ▸ hxmem
        · exact hmem y h1

theorem sampleLoop_nil_none (picks : Nat → Nat) (n : Nat) (ns : List Nat) :
    sampleLoop [] picks (n :: ns) = none := by
  simp [sampleLoop, choice]

theorem mem_vehicle_distribution (cw mw bw : Int) (x : String) :
    x ∈ vehicle_distribution cw mw bw ↔
      (x = "car" ∧ 0 < cw) ∨ (x = "motorcycle" ∧ 0 < mw) ∨ (x = "bus" ∧ 0 < bw) := by
  simp only [vehicle_distribution, pyRepeat, List.mem_append, List.mem_replicate, ne_eq,
    Int.toNat_eq_zero, not_le]
  tauto

theorem decodeData_map_str (l : List String) : decodeData (l.map Json.str) = some l := by
  induction l with
  | nil => rfl
  | cons x xs ih => simp [decodeData, jsonToString, ih]

theorem decode_encode (p : Payload) : decodePayload (encodePayload p) = some p := by
  simp [encodePayload, decodePayload, decodeData_map_str]

/-- C4: for non-negative weights with at least one positive, the Category Pool
has length cw + mw + bw and contains each label exactly its weight-many
times. -/
theorem C4_pool_counts (cw mw bw : Int)
    (h1 : 0 ≤ cw) (h2 : 0 ≤ mw) (h3 : 0 ≤ bw) (h4 : 0 < cw + mw + bw) :
    ((vehicle_distribution cw mw bw).length : Int) = cw + mw + bw ∧
    ((vehicle_distribution cw mw bw).count "car" : Int) = cw ∧
    ((vehicle_distribution cw mw bw).count "motorcycle" : Int) = mw ∧
    ((vehicle_distribution cw mw bw).count "bus" : Int) = bw := by
  have e1 : (("car" : String) = "motorcycle") = False := by simp
  have e2 : (("car" : String) = "bus") = False := by simp
  have e3 : (("motorcycle" : String) = "car") = False := by simp
  have e4 : (("motorcycle" : String) = "bus") = False := by simp
  have e5 : (("bus" : String) = "car") = False := by simp
  have e6 : (("bus" : String) = "motorcycle") = False := by simp
  simp only [vehicle_distribution, pyRepeat, List.length_append, List.length_replicate,
    List.count_append, List.count_replicate, beq_iff_eq, e1, e2, e3, e4, e5, e6,
    eq_self_iff_true, if_true, if_false]
  refine ⟨by omega, by omega, by omega, by omega⟩

theorem C4_witness :
    ((vehicle_distribution 2 0 3).length : Int) = 2 + 0 + 3 ∧
    ((vehicle_distribution 2 0 3).count "car" : Int) = 2 ∧
    ((vehicle_distribution 2 0 3).count "motorcycle" : Int) = 0 ∧
    ((vehicle_distribution 2 0 3).count "bus" : Int) = 3 :=
  C4_pool_counts 2 0 3 (by decide) (by decide) (by decide) (by decide)

/-- C7: with weights (1,0,0) and batch-size 5, every batch — whatever the
random oracle returns — is five times "car". -/
theorem C7_all_car (picks : Nat → Nat) :
    sampleBatch (vehicle_distribution 1 0 0) 5 picks =
      some ["car", "car", "car", "car", "car"] := by
  show sampleLoop ["car"] picks [0, 1, 2, 3, 4] = _
  simp [sampleLoop, choice, Nat.mod_one]

/-- C10: a negative weight behaves exactly like weight zero when building the
pool, because python list repetition clamps negative counts to empty. -/
theorem C10_negative_weight_clamped (cw mw bw : Int) :
    vehicle_distribution cw mw bw =
      vehicle_distribution (max cw 0) (max mw 0) (max bw 0) := by
  have h : ∀ n : Int, (max n 0).toNat = n.toNat := by
    intro n
    rcases le_total n 0 with h | h
    · rw [max_eq_right h]
      omega
    · rw [max_eq_left h]
  simp only [vehicle_distribution, pyRepeat, h]

/-- C3 counterexample: an argument vector with an empty location, a negative
weight and a negative batch-size is accepted without any error, so the claimed
validation (non-empty location, non-negative integers, ConfigError on
violation) does not exist in the code. -/
theorem C3_counterexample :
    startup ["sensor.py", "", "-1", "0", "0", "-2", "0"] =
      Except.ok { location := "", cw := -1, mw := 0, bw := 0,
                  num_vehicles := -2, period := 0 } := by rfl

/-- C3 amended: the six positional values are read without validation:
whenever the location argument is present and the five integer arguments
parse under python `int()`, startup succeeds and stores them verbatim —
whatever their sign and even if the location is empty.  Parse failures and
missing arguments surface as uncaught ValueError/IndexError, not as a
ConfigError, which the program does not define. -/
theorem C3_no_validation (argv : List String) (loc : String) (cw mw bw nv p : Int)
    (h1 : argv.get? 1 = some loc)
    (h2 : pyArgInt argv 2 = Except.ok cw)
    (h3 : pyArgInt argv 3 = Except.ok mw)
    (h4 : pyArgInt argv 4 = Except.ok bw)
    (h5 : pyArgInt argv 5 = Except.ok nv)
    (h6 : pyArgInt argv 6 = Except.ok p) :
    startup argv = Except.ok { location := loc, cw := cw, mw := mw, bw := bw,
                               num_vehicles := nv, period := p } := by
  unfold startup
  rw [h1, h2, h3, h4, h5, h6]
  rfl

theorem C3_no_validation_witness :
    startup ["sensor.py", "", "-7", "-1", "0", "-2", "-9"] =
      Except.ok { location := "", cw := -7, mw := -1, bw := 0,
                  num_vehicles := -2, period := -9 } :=
  C3_no_validation ["sensor.py", "", "-7", "-1", "0", "-2", "-9"] "" (-7) (-1) 0 (-2) (-9)
    (by rfl) (by rfl) (by rfl) (by rfl) (by rfl) (by rfl)

/-- C1 counterexample: with weights (1,0,0), batch-size 1 and a transport
failure on the first POST, running two cycles aborts with the uncaught
network error instead of proceeding to the second cycle, so the claim that
the error is caught and the loop continues is false. -/
theorem C1_counterexample :
    runLoop zeroPicks alwaysFail 2
      (initState { location := "a", cw := 1, mw := 0, bw := 0,
                   num_vehicles := 1, period := 1 }) =
      Except.error CycleError.networkError := by rfl

/-- C1 amended: a network/transport error raised by the POST is not caught —
the loop body has no handler — so it propagates and terminates the run at
that very cycle; no further cycle executes.  Stated for any state whose pool
is non-empty (so sampling precedes the POST without raising). -/
theorem C1_network_error_fatal (picks : Nat → Nat → Nat) (postOk : Nat → Bool)
    (n : Nat) (s : ProcState)
    (hfail : postOk s.cycles = false)
    (hpool : s.vehicle_distribution ≠ []) :
    runLoop picks postOk (n + 1) s = Except.error CycleError.networkError := by
  obtain ⟨l, hl, _, _⟩ :=
    sampleLoop_ok s.vehicle_distribution (picks s.cycles) hpool
      (pyRange s.num_vehicles)
  simp [runLoop, stepCycle, sampleBatch, hl, hfail]

theorem C1_network_error_fatal_witness :
    runLoop zeroPicks alwaysFail 3
      (initState { location := "b", cw := 2, mw := 0, bw := 0,
                   num_vehicles := 1, period := 1 }) =
      Except.error CycleError.networkError :=
  C1_network_error_fatal zeroPicks alwaysFail 2
    (initState { location := "b", cw := 2, mw := 0, bw := 0,
                 num_vehicles := 1, period := 1 })
    (by rfl) (by decide)

/-- C2 counterexample: with weights (0,0,0) startup succeeds — there is no
ConfigError and no pool check — and with batch-size 0 the first cycle even
issues a POST (with an empty data array), so both halves of the claim fail. -/
theorem C2_counterexample :
    startup ["sensor.py", "z", "0", "0", "0", "0", "1"] =
      Except.ok { location := "z", cw := 0, mw := 0, bw := 0,
                  num_vehicles := 0, period := 1 } ∧
    runLoop zeroPicks alwaysOk 1
      (initState { location := "z", cw := 0, mw := 0, bw := 0,
                   num_vehicles := 0, period := 1 }) =
      Except.ok { location := "z", cw := 0, mw := 0, bw := 0,
                  num_vehicles := 0, period := 1,
                  vehicle_distribution := [], vehicles := [],
                  posted := [{ location := "z", data := [] }], cycles := 1 } :=
  ⟨rfl, rfl⟩

/-- C2 amended: all-zero weights pass startup unchecked; the empty pool is
built, and if batch-size ≥ 1 the first cycle aborts with an uncaught
IndexError from `random.choice` on the empty list — before the POST of that
cycle — while batch-size ≤ 0 lets cycles run and POST empty batches. -/
theorem C2_zero_weights_index_error (picks : Nat → Nat → Nat) (postOk : Nat → Bool)
    (n : Nat) (cfg : Config)
    (hc : cfg.cw = 0) (hm : cfg.mw = 0) (hb : cfg.bw = 0)
    (hn : 1 ≤ cfg.num_vehicles) :
    runLoop picks postOk (n + 1) (initState cfg) =
      Except.error CycleError.indexError := by
  have hpool : vehicle_distribution cfg.cw cfg.mw cfg.bw = [] := by
    rw [hc, hm, hb]
    rfl
  have hne : pyRange cfg.num_vehicles ≠ [] := by
    simp [pyRange, List.range_eq_nil, Int.toNat_eq_zero]
    omega
  obtain ⟨a, as, hcons⟩ := List.exists_cons_of_ne_nil hne
  simp [runLoop, stepCycle, sampleBatch, initState, hpool, hcons, sampleLoop_nil_none]

theorem C2_zero_weights_index_error_witness :
    runLoop zeroPicks alwaysOk 1
      (initState { location := "w", cw := 0, mw := 0, bw := 0,
                   num_vehicles := 2, period := 0 }) =
      Except.error CycleError.indexError :=
  C2_zero_weights_index_error zeroPicks alwaysOk 0
    { location := "w", cw := 0, mw := 0, bw := 0, num_vehicles := 2, period := 0 }
    rfl rfl rfl (by decide)

/-- C5: with batch-size ≥ 0 and a non-empty pool, one cycle's Observation
Batch has exactly batch-size entries, each a label of positive weight. -/
theorem C5_batch_entries (cw mw bw num : Int) (picks : Nat → Nat)
    (hnum : 0 ≤ num) (hpool : vehicle_distribution cw mw bw ≠ []) :
    ∃ l, sampleBatch (vehicle_distribution cw mw bw) num picks = some l ∧
      (l.length : Int) = num ∧
      ∀ x ∈ l, (x = "car" ∧ 0 < cw) ∨ (x = "motorcycle" ∧ 0 < mw) ∨
        (x = "bus" ∧ 0 < bw) := by
  obtain ⟨l, hl, hlen, hmem⟩ :=
    sampleLoop_ok (vehicle_distribution cw mw bw) picks hpool (pyRange num)
  refine ⟨l, hl, ?_, ?_⟩
  · have hr : (pyRange num).length = num.toNat := by simp [pyRange]
    rw [hlen, hr]
    omega
  · intro x hx
    exact (mem_vehicle_distribution cw mw bw x).mp (hmem x hx)

theorem C5_batch_entries_witness :
    ∃ l, sampleBatch (vehicle_distribution 1 0 2) 3 idPicks = some l ∧
      (l.length : Int) = 3 ∧
      ∀ x ∈ l, (x = "car" ∧ 0 < (1 : Int)) ∨ (x = "motorcycle" ∧ 0 < (0 : Int)) ∨
        (x = "bus" ∧ 0 < (2 : Int)) :=
  C5_batch_entries 1 0 2 3 idPicks (by decide) (by decide)

/-- C6: each successful cycle appends exactly one payload, built from the
batch in draw order; decoding its JSON encoding restores it, its location is
the configured one, its data has batch-size entries over the valid label
set, and the request headers carry Content-Type: application/json. -/
theorem C6_payload_roundtrip (cw mw bw : Int) (picks : Nat → Nat) (s : ProcState)
    (hpool : s.vehicle_distribution = vehicle_distribution cw mw bw)
    (hne : s.vehicle_distribution ≠ [])
    (hnum : 0 ≤ s.num_vehicles) :
    ∃ s2 p, stepCycle picks true s = Except.ok s2 ∧
      s2.posted = s.posted ++ [p] ∧
      p.data = s2.vehicles ∧
      decodePayload (encodePayload p) = some p ∧
      p.location = s.location ∧
      (p.data.length : Int) = s.num_vehicles ∧
      (∀ x ∈ p.data, x = "car" ∨ x = "motorcycle" ∨ x = "bus") ∧
      headers = [("Content-Type", "application/json")] := by
  obtain ⟨l, hl, hlen, hmem⟩ :=
    sampleLoop_ok s.vehicle_distribution picks hne (pyRange s.num_vehicles)
  refine ⟨{ s with vehicles := l,
                   posted := s.posted ++ [{ location := s.location, data := l }],
                   cycles := s.cycles + 1 },
          { location := s.location, data := l },
          ?_, rfl, rfl, decode_encode _, rfl, ?_, ?_, rfl⟩
  · simp [stepCycle, sampleBatch, hl]
  · have hr : (pyRange s.num_vehicles).length = s.num_vehicles.toNat := by
      simp [pyRange]
    show (l.length : Int) = s.num_vehicles
    rw [hlen, hr]
    omega
  · intro x hx
    have := (mem_vehicle_distribution cw mw bw x).mp (hpool ▸ hmem x hx)
    tauto

theorem C6_payload_roundtrip_witness :
    ∃ s2 p, stepCycle idPicks true
        (initState { location := "w", cw := 1, mw := 1, bw := 0,
                     num_vehicles := 2, period := 0 }) = Except.ok s2 ∧
      s2.posted =
        (initState { location := "w", cw := 1, mw := 1, bw := 0,
                     num_vehicles := 2, period := 0 }).posted ++ [p] ∧
      p.data = s2.vehicles ∧
      decodePayload (encodePayload p) = some p ∧
      p.location =
        (initState { location := "w", cw := 1, mw := 1, bw := 0,
                     num_vehicles := 2, period := 0 }).location ∧
      (p.data.length : Int) =
        (initState { location := "w", cw := 1, mw := 1, bw := 0,
                     num_vehicles := 2, period := 0 }).num_vehicles ∧
      (∀ x ∈ p.data, x = "car" ∨ x = "motorcycle" ∨ x = "bus") ∧
      headers = [("Content-Type", "application/json")] :=
  C6_payload_roundtrip 1 1 0 idPicks
    (initState { location := "w", cw := 1, mw := 1, bw := 0,
                 num_vehicles := 2, period := 0 })
    rfl (by decide) (by decide)

theorem stepCycle_preserves (picks : Nat → Nat) (ok : Bool) (s s2 : ProcState)
    (h : stepCycle picks ok s = Except.ok s2) :
    s2.location = s.location ∧ s2.cw = s.cw ∧ s2.mw = s.mw ∧ s2.bw = s.bw ∧
    s2.num_vehicles = s.num_vehicles ∧ s2.period = s.period ∧
    s2.vehicle_distribution = s.vehicle_distribution := by
  unfold stepCycle at h
  cases hs : sampleBatch s.vehicle_distribution s.num_vehicles picks with
  | none =>
      rw [hs] at h
      exact Except.noConfusion h
  | some vs =>
      rw [hs] at h
      cases ok with
      | false => exact Except.noConfusion h
      | true =>
          simp only [if_true, Except.ok.injEq] at h
          subst h
          exact ⟨rfl, rfl, rfl, rfl, rfl, rfl, rfl⟩

theorem runLoop_preserves (picks : Nat → Nat → Nat) (postOk : Nat → Bool) :
    ∀ (n : Nat) (s s2 : ProcState), runLoop picks postOk n s = Except.ok s2 →
      s2.location = s.location ∧ s2.cw = s.cw ∧ s2.mw = s.mw ∧ s2.bw = s.bw ∧
      s2.num_vehicles = s.num_vehicles ∧ s2.period = s.period ∧
      s2.vehicle_distribution = s.vehicle_distribution := by
  intro n
  induction n with
  | zero =>
      intro s s2 h
      cases h
      exact ⟨rfl, rfl, rfl, rfl, rfl, rfl, rfl⟩
  | succ n ih =>
      intro s s2 h
      unfold runLoop at h
      cases hstep : stepCycle (picks s.cycles) (postOk s.cycles) s with
      | error e =>
          rw [hstep] at h
          exact Except.noConfusion h
      | ok s1 =>
          rw [hstep] at h
          obtain ⟨p1, p2, p3, p4, p5, p6, p7⟩ := stepCycle_preserves _ _ _ _ hstep
          obtain ⟨q1, q2, q3, q4, q5, q6, q7⟩ := ih s1 s2 h
          exact ⟨q1.trans p1, q2.trans p2, q3.trans p3, q4.trans p4,
                 q5.trans p5, q6.trans p6, q7.trans p7⟩

/-- C8: the six configuration values and the Category Pool, fixed before the
loop by `initState`, are unchanged by every number of loop cycles: the final
state still carries the startup configuration and the pool built once from
it. -/
theorem C8_config_immutable (picks : Nat → Nat → Nat) (postOk : Nat → Bool)
    (n : Nat) (cfg : Config) (s2 : ProcState)
    (h : runLoop picks postOk n (initState cfg) = Except.ok s2) :
    s2.location = cfg.location ∧ s2.cw = cfg.cw ∧ s2.mw = cfg.mw ∧
    s2.bw = cfg.bw ∧ s2.num_vehicles = cfg.num_vehicles ∧
    s2.period = cfg.period ∧
    s2.vehicle_distribution = vehicle_distribution cfg.cw cfg.mw cfg.bw := by
  have := runLoop_preserves picks postOk n (initState cfg) s2 h
  simpa [initState] using this

theorem C8_config_immutable_witness :
    ({ location := "c", cw := 1, mw := 0, bw := 0, num_vehicles := 1,
       period := 0, vehicle_distribution := ["car"], vehicles := ["car"],
       posted := [{ location := "c", data := ["car"] },
                  { location := "c", data := ["car"] }],
       cycles := 2 } : ProcState).location =
      ({ location := "c", cw := 1, mw := 0, bw := 0, num_vehicles := 1,
         period := 0 } : Config).location ∧
    ({ location := "c", cw := 1, mw := 0, bw := 0, num_vehicles := 1,
       period := 0, vehicle_distribution := ["car"], vehicles := ["car"],
       posted := [{ location := "c", data := ["car"] },
                  { location := "c", data := ["car"] }],
       cycles := 2 } : ProcState).cw = 1 ∧
    ({ location := "c", cw := 1, mw := 0, bw := 0, num_vehicles := 1,
       period := 0, vehicle_distribution := ["car"], vehicles := ["car"],
       posted := [{ location := "c", data := ["car"] },
                  { location := "c", data := ["car"] }],
       cycles := 2 } : ProcState).mw = 0 ∧
    ({ location := "c", cw := 1, mw := 0, bw := 0, num_vehicles := 1,
       period := 0, vehicle_distribution := ["car"], vehicles := ["car"],
       posted := [{ location := "c", data := ["car"] },
                  { location := "c", data := ["car"] }],
       cycles := 2 } : ProcState).bw = 0 ∧
    ({ location := "c", cw := 1, mw := 0, bw := 0, num_vehicles := 1,
       period := 0, vehicle_distribution := ["car"], vehicles := ["car"],
       posted := [{ location := "c", data := ["car"] },
                  { location := "c", data := ["car"] }],
       cycles := 2 } : ProcState).num_vehicles = 1 ∧
    ({ location := "c", cw := 1, mw := 0, bw := 0, num_vehicles := 1,
       period := 0, vehicle_distribution := ["car"], vehicles := ["car"],
       posted := [{ location := "c", data := ["car"] },
                  { location := "c", data := ["car"] }],
       cycles := 2 } : ProcState).period = 0 ∧
    ({ location := "c", cw := 1, mw := 0, bw := 0, num_vehicles := 1,
       period := 0, vehicle_distribution := ["car"], vehicles := ["car"],
       posted := [{ location := "c", data := ["car"] },
                  { location := "c", data := ["car"] }],
       cycles := 2 } : ProcState).vehicle_distribution =
      vehicle_distribution 1 0 0 :=
  C8_config_immutable zeroPicks alwaysOk 2
    { location := "c", cw := 1, mw := 0, bw := 0, num_vehicles := 1, period := 0 }
    { location := "c", cw := 1, mw := 0, bw := 0, num_vehicles := 1,
      period := 0, vehicle_distribution := ["car"], vehicles := ["car"],
      posted := [{ location := "c", data := ["car"] },
                 { location := "c", data := ["car"] }],
      cycles := 2 } (by rfl)

/-- C9: with batch-size ≤ 0 nothing fails: the range is empty, the batch is
the empty list, and the cycle still issues a POST whose data array is
empty. -/
theorem C9_nonpositive_batch (picks : Nat → Nat) (s : ProcState)
    (h : s.num_vehicles ≤ 0) :
    sampleBatch s.vehicle_distribution s.num_vehicles picks = some [] ∧
    stepCycle picks true s =
      Except.ok { s with vehicles := [],
                         posted := s.posted ++ [{ location := s.location, data := [] }],
                         cycles := s.cycles + 1 } := by
  have hr : pyRange s.num_vehicles = [] := by
    simp [pyRange, List.range_eq_nil, Int.toNat_eq_zero]
    omega
  constructor
  · simp [sampleBatch, hr, sampleLoop]
  · simp [stepCycle, sampleBatch, hr, sampleLoop]

theorem C9_nonpositive_batch_witness :
    sampleBatch (initState { location := "n", cw := 1, mw := 0, bw := 0,
                             num_vehicles := -3, period := 0 }).vehicle_distribution
        (initState { location := "n", cw := 1, mw := 0, bw := 0,
                     num_vehicles := -3, period := 0 }).num_vehicles idPicks = some [] ∧
    stepCycle idPicks true
        (initState { location := "n", cw := 1, mw := 0, bw := 0,
                     num_vehicles := -3, period := 0 }) =
      Except.ok { (initState { location := "n", cw := 1, mw := 0, bw := 0,
                               num_vehicles := -3, period := 0 }) with
                  vehicles := [],
                  posted := (initState { location := "n", cw := 1, mw := 0, bw := 0,
                                         num_vehicles := -3, period := 0 }).posted ++
                    [{ location := (initState { location := "n", cw := 1, mw := 0, bw := 0,
                                                num_vehicles := -3, period := 0 }).location,
                       data := [] }],
                  cycles := (initState { location := "n", cw := 1, mw := 0, bw := 0,
                                         num_vehicles := -3, period := 0 }).cycles + 1 } :=
  C9_nonpositive_batch idPicks
    (initState { location := "n", cw := 1, mw := 0, bw := 0,
                 num_vehicles := -3, period := 0 }) (by decide)

end Sensor
